import Mathlib

/-!
Verification of the job-board core logic: the classifier / transformer /
fetch-gateway pipeline (`app/api/route.ts`), the application validator and
store (`app/api/apply/route.ts`), and the client fetch helper and state
controller (`lib/api.ts`, `context/JobContext.tsx`).

JavaScript-modelling conventions used throughout:
* strings are Lean `String`s, and string operations (`toLowerCase`, `trim`,
  `includes`, `split`) are re-implemented structurally over `String.data`
  so that every definition evaluates inside the kernel;
* a field that may be absent (`undefined`/`null`) is an `Option`;
* JavaScript truthiness: a string is falsy iff it is empty, a number is
  falsy iff it is `0`, an absent value is falsy, an array is always truthy;
* JS numbers are modelled as `Int` (no claim depends on fractional values);
* `Date.now()` is a `Nat` parameter `nowMs`, and `Date#toISOString` is an
  opaque injective rendering `toISOString` of the millisecond timestamp.
-/

/-! ### JavaScript string primitives, modelled over `List Char` -/

/-- `String.prototype.toLowerCase`, modelled as a per-character map
(ASCII-faithful; every string in the source is ASCII). -/
def jsToLower (s : String) : String := String.mk (s.data.map Char.toLower)

/-- `String.prototype.trim`: strip leading and trailing whitespace. -/
def jsTrim (s : String) : String :=
  String.mk (((s.data.dropWhile Char.isWhitespace).reverse.dropWhile Char.isWhitespace).reverse)

/-- Does `pat` occur as a leading block of `hay`? (helper for `strContains`). -/
def leadsWith : List Char → List Char → Bool
  | [], _ => true
  | _ :: _, [] => false
  | p :: ps, h :: hs => p == h && leadsWith ps hs

/-- Does `pat` occur contiguously inside `hay`? (helper for `strContains`). -/
def hasSub (pat : List Char) : List Char → Bool
  | [] => pat.isEmpty
  | c :: t => leadsWith pat (c :: t) || hasSub pat t

/-- `String.prototype.includes`: substring test (the empty pattern always
occurs, as in JavaScript). -/
def strContains (s pat : String) : Bool := hasSub pat.data s.data

/-- One step of splitting on a run of separator characters: `acc` is the
current fragment (reversed), `skipping` records that the previous character
was a separator, so further separators extend the same run. -/
def jsSplitAux (p : Char → Bool) : List Char → List Char → Bool → List (List Char)
  | [], acc, _ => [acc.reverse]
  | c :: rest, acc, skipping =>
    if p c then
      if skipping then jsSplitAux p rest [] true
      else acc.reverse :: jsSplitAux p rest [] true
    else jsSplitAux p rest (c :: acc) false

/-- `String.prototype.split` against a character-class regex with a `+`
quantifier (e.g. `/[.!?]+/`): fragments between maximal runs of separator
characters, keeping the empty fragments JavaScript produces at the two ends. -/
def jsSplitRuns (p : Char → Bool) (s : String) : List String :=
  (jsSplitAux p s.data [] false).map fun l => String.mk l

/-- Split a character list at every occurrence of `sep` (used to decide the
e-mail regex). -/
def splitOnChar (sep : Char) : List Char → List (List Char)
  | [] => [[]]
  | c :: cs =>
    match splitOnChar sep cs with
    | [] => [[c]]
    | h :: t => if c == sep then [] :: h :: t else (c :: h) :: t

/-- JS string truthiness for an optional field: truthy iff present and
non-empty. -/
def jsStrTruthy (v : Option String) : Bool :=
  match v with
  | some s => !(s == "")
  | none => false

/-- `x || d` for an optional string `x`: the default is taken when `x` is
absent or falsy (empty). -/
def jsOrStr (v : Option String) (d : String) : String :=
  match v with
  | some s => if s = "" then d else s
  | none => d

/-- JS numeric truthiness for an optional field: truthy iff present and
non-zero (`0` is falsy in JavaScript). -/
def jsNumTruthy (v : Option Int) : Bool :=
  match v with
  | some n => !(n == 0)
  | none => false

/-- `Date#toISOString` on a millisecond epoch value, kept as an opaque
injective rendering of the timestamp: no claim inspects the text of a date,
only which timestamp it renders. -/
def toISOString (ms : Int) : String := "epoch-ms:" ++ toString ms

/-! ### Data model (`interfaces/index.ts`) -/

/-- The optional `salary` triple of a `Job`. -/
structure Salary where
  min : Int
  max : Int
  currency : String
deriving Repr, DecidableEq

/-- The application's internal `Job` record (`interfaces/index.ts`).
`category`, `experienceLevel` and `type` are strings whose values the
classifier keeps inside closed sets. -/
structure Job where
  id : String
  title : String
  company : String
  location : String
  category : String
  experienceLevel : String
  type : String
  salary : Option Salary
  description : String
  requirements : List String
  responsibilities : List String
  benefits : Option (List String)
  postedDate : String
  applicationDeadline : Option String
  remote : Bool
deriving Repr, DecidableEq

/-- One element of the upstream RemoteOK JSON array, with every field the
transformer reads modelled as optional (the upstream schema is not
controlled by this system). -/
structure RemoteOKJob where
  id : Option String
  slug : Option String
  position : Option String
  company : Option String
  location : Option String
  tags : Option (List String)
  salary_min : Option Int
  salary_max : Option Int
  description : Option String
  date : Option Int
deriving Repr, DecidableEq

/-- The argument of `determineCategory`: `string[] | string`. -/
inductive TagsOrTitle where
  | tags (ts : List String)
  | title (t : String)
deriving Repr, DecidableEq

/-! ### Classifier (`app/api/route.ts`, lines 32–119) -/

/-- The keyword-group chain of `determineCategory`, as a function of the
already-computed lower-cased search text. -/
def categoryOfText (searchText : String) : String :=
  if strContains searchText "dev" || strContains searchText "engineer" ||
     strContains searchText "programmer" || strContains searchText "frontend" ||
     strContains searchText "backend" || strContains searchText "fullstack" ||
     strContains searchText "full stack" then "Software Development"
  else if strContains searchText "data" || strContains searchText "analyst" ||
     strContains searchText "scientist" || strContains searchText "ml" ||
     strContains searchText "machine learning" then "Data Science"
  else if strContains searchText "design" || strContains searchText "ux" ||
     strContains searchText "ui" || strContains searchText "graphic" then "Design"
  else if strContains searchText "market" || strContains searchText "seo" ||
     strContains searchText "growth" then "Marketing"
  else if strContains searchText "product" || strContains searchText "pm" then "Product Management"
  else if strContains searchText "sales" || strContains searchText "business development" then "Sales"
  else if strContains searchText "support" || strContains searchText "customer" ||
     strContains searchText "success" then "Customer Support"
  else if strContains searchText "hr" || strContains searchText "human" ||
     strContains searchText "recruiter" || strContains searchText "talent" then "Human Resources"
  else if strContains searchText "finance" || strContains searchText "accounting" ||
     strContains searchText "accountant" then "Finance"
  else if strContains searchText "devops" || strContains searchText "sre" ||
     strContains searchText "infrastructure" then "DevOps"
  else if strContains searchText "qa" || strContains searchText "test" ||
     strContains searchText "quality" then "Quality Assurance"
  else if strContains searchText "security" || strContains searchText "cyber" then "Security"
  else "Software Development"

/-- `determineCategory`: join tag lists with spaces, lower-case, and test the
fixed keyword groups in their source order, defaulting to
`"Software Development"`. -/
def determineCategory (tagsOrTitle : TagsOrTitle) : String :=
  let searchText :=
    match tagsOrTitle with
    | .tags ts => jsToLower (String.mk ((ts.map String.data).intersperse [' ']).flatten)
    | .title t => jsToLower t
  categoryOfText searchText

/-- The Senior keyword group of `determineExperienceLevel`. -/
def hasSeniorKW (lowerTitle : String) : Bool :=
  strContains lowerTitle "senior" || strContains lowerTitle "sr." ||
    strContains lowerTitle "principal"

/-- The Lead keyword group of `determineExperienceLevel`. -/
def hasLeadKW (lowerTitle : String) : Bool :=
  strContains lowerTitle "lead" || strContains lowerTitle "staff" ||
    strContains lowerTitle "chief"

/-- The Entry keyword group of `determineExperienceLevel`. -/
def hasEntryKW (lowerTitle : String) : Bool :=
  strContains lowerTitle "junior" || strContains lowerTitle "jr." ||
    strContains lowerTitle "entry" || strContains lowerTitle "intern"

/-- `determineExperienceLevel`: lower-case the title and test the Senior,
Lead, then Entry keyword groups, defaulting to `"Mid-Level"`. -/
def determineExperienceLevel (title : String) : String :=
  let lowerTitle := jsToLower title
  if hasSeniorKW lowerTitle then "Senior"
  else if hasLeadKW lowerTitle then "Lead"
  else if hasEntryKW lowerTitle then "Entry-Level"
  else "Mid-Level"

/-- The sentence-ending characters of the `/[.!?]+/` split regex. -/
def isSentenceBreak (c : Char) : Bool := c == '.' || c == '!' || c == '?'

/-- The generic fallback requirements list. -/
def fallbackRequirements : List String :=
  ["Experience in relevant field", "Strong communication skills",
   "Ability to work in a team environment"]

/-- `extractRequirements`: split the description on sentence-ending
punctuation, keep fragments whose trimmed length exceeds 10, take the first
3 trimmed; fall back to the generic triple when nothing survives. -/
def extractRequirements (description : String) : List String :=
  let requirements : List String :=
    if description ≠ "" then
      let sentences :=
        (jsSplitRuns isSentenceBreak description).filter fun s => (jsTrim s).length > 10
      (sentences.take 3).map jsTrim
    else []
  if requirements.length = 0 then fallbackRequirements
  else requirements

/-- `transformRemoteOKJob`: map one upstream record to a `Job`. `nowMs`
models the `Date.now()` calls made while handling the request. -/
def transformRemoteOKJob (nowMs : Nat) (remoteJob : RemoteOKJob) : Job :=
  { id := jsOrStr remoteJob.id (jsOrStr remoteJob.slug ("job-" ++ toString nowMs))
    title := jsOrStr remoteJob.position "Untitled Position"
    company := jsOrStr remoteJob.company "Company Confidential"
    location := jsOrStr remoteJob.location "Remote"
    category := determineCategory (.tags (remoteJob.tags.getD []))
    experienceLevel := determineExperienceLevel (jsOrStr remoteJob.position "")
    type := "Full-time"
    salary :=
      if jsNumTruthy remoteJob.salary_min && jsNumTruthy remoteJob.salary_max then
        some { min := remoteJob.salary_min.getD 0, max := remoteJob.salary_max.getD 0,
               currency := "USD" }
      else none
    description := jsOrStr remoteJob.description "No description available"
    requirements := extractRequirements (jsOrStr remoteJob.description "")
    responsibilities := []
    benefits := none
    postedDate :=
      if jsNumTruthy remoteJob.date then toISOString (remoteJob.date.getD 0 * 1000)
      else toISOString (nowMs : Int)
    applicationDeadline := none
    remote := true }

/-! ### Fetch Gateway (`GET` handler, `app/api/route.ts` lines 125–217)

The handler's query parameters after extraction: `query` is defaulted to
`""` when both `q` and `query` are absent; the other three are `null` when
absent (`searchParams.get`). The upstream body is `some` array when
`Array.isArray(result)` holds, `none` otherwise; array elements that are not
objects (`null` etc.) are `none`. -/

structure JobsQuery where
  query : String
  experienceLevel : Option String
  category : Option String
  jobType : Option String
deriving Repr, DecidableEq

/-- The pre-filter part of the `GET` pipeline: skip the first array element
(metadata), drop entries that are falsy or have a falsy `id`
(`.filter(job => job && job.id)`), and transform the rest. -/
def transformUpstream (nowMs : Nat) (result : Option (List (Option RemoteOKJob))) : List Job :=
  let jobData := match result with
    | some arr => arr.drop 1
    | none => []
  let valid := jobData.filter fun j =>
    match j with
    | some r => jsStrTruthy r.id
    | none => false
  valid.filterMap fun j => j.map (transformRemoteOKJob nowMs)

/-- The sequential filter block of the `GET` handler (lines 160–181),
applied to the transformed jobs. -/
def applyJobFilters (q : JobsQuery) (jobs0 : List Job) : List Job :=
  let jobs1 :=
    if q.query != "" && jsTrim q.query != "" then
      let searchQuery := jsToLower q.query
      jobs0.filter fun job =>
        strContains (jsToLower job.title) searchQuery ||
        strContains (jsToLower job.company) searchQuery ||
        strContains (jsToLower job.description) searchQuery ||
        strContains (jsToLower job.category) searchQuery
    else jobs0
  let jobs2 :=
    match q.experienceLevel with
    | some el => if el != "" && el != "All Levels" then
        jobs1.filter fun job => job.experienceLevel == el
      else jobs1
    | none => jobs1
  let jobs3 :=
    match q.category with
    | some c => if c != "" && c != "All Categories" then
        jobs2.filter fun job => job.category == c
      else jobs2
    | none => jobs2
  match q.jobType with
  | some t => if t != "" && t != "All Types" then
      jobs3.filter fun job => job.type == t
    else jobs3
  | none => jobs3

/-- `listJobs`: the `data` field of the `GET` handler's successful response. -/
def listJobs (nowMs : Nat) (result : Option (List (Option RemoteOKJob)))
    (q : JobsQuery) : List Job :=
  applyJobFilters q (transformUpstream nowMs result)

/-! Spec-side single-pass characterisations of the filter block, used to
state claim C1. `claimedKeep` follows the claim's words verbatim (the query
filter is active whenever `query` is non-empty); `amendedKeep` is the
minimal repair (active whenever `query` is non-empty after trimming, which
is how the handler behaves on whitespace-only queries). -/

/-- The case-insensitive substring test of the query filter. -/
def querySubstrMatch (query : String) (job : Job) : Bool :=
  strContains (jsToLower job.title) (jsToLower query) ||
  strContains (jsToLower job.company) (jsToLower query) ||
  strContains (jsToLower job.description) (jsToLower query) ||
  strContains (jsToLower job.category) (jsToLower query)

/-- One exact-match filter: a parameter keeps the job unless it is present,
non-empty, not the sentinel, and differs from the job's field. -/
def optParamKeep (p : Option String) (sentinel field : String) : Bool :=
  match p with
  | some v => if v != "" && v != sentinel then field == v else true
  | none => true

/-- The claim's job predicate, exactly as claim C1 words it: the query
filter applies whenever `query` is non-empty. Conjunct order follows the
order in which the handler merges its filters. -/
def claimedKeep (q : JobsQuery) (job : Job) : Bool :=
  optParamKeep q.jobType "All Types" job.type &&
  (optParamKeep q.category "All Categories" job.category &&
  (optParamKeep q.experienceLevel "All Levels" job.experienceLevel &&
  (if q.query != "" then querySubstrMatch q.query job else true)))

/-- The amended job predicate: the query filter applies whenever `query` is
non-empty after trimming. -/
def amendedKeep (q : JobsQuery) (job : Job) : Bool :=
  optParamKeep q.jobType "All Types" job.type &&
  (optParamKeep q.category "All Categories" job.category &&
  (optParamKeep q.experienceLevel "All Levels" job.experienceLevel &&
  (if jsTrim q.query != "" then querySubstrMatch q.query job else true)))

/-- `listJobs` as claim C1 describes it. -/
def listJobsClaimed (nowMs : Nat) (result : Option (List (Option RemoteOKJob)))
    (q : JobsQuery) : List Job :=
  (transformUpstream nowMs result).filter (claimedKeep q)

/-- `listJobs` as the amended claim describes it. -/
def listJobsAmended (nowMs : Nat) (result : Option (List (Option RemoteOKJob)))
    (q : JobsQuery) : List Job :=
  (transformUpstream nowMs result).filter (amendedKeep q)

/-! ### Validator (`app/api/apply/route.ts`, lines 10–71)

An inbound request body: each expected string field is `some` string or
absent, `yearsOfExperience` is an optional number. (A field carrying a
non-string JSON value is outside the model; every `typeof` check in the
source then reduces to the presence test.) -/

structure AppData where
  jobId : Option String
  applicantName : Option String
  email : Option String
  phone : Option String
  coverLetter : Option String
  linkedIn : Option String
  portfolio : Option String
  yearsOfExperience : Option Int
deriving Repr, DecidableEq

/-- Decides the e-mail regex `^[^\s@]+@[^\s@]+\.[^\s@]+$`: the string must
split at a unique `@` into a non-empty whitespace-free local part and a
whitespace-free rest that carries a `.` with at least one character on each
side (the rest may itself contain further dots, matched into the middle
`[^\s@]+` block). -/
def isValidEmail (email : String) : Bool :=
  match splitOnChar '@' email.data with
  | [localPart, rest] =>
    !localPart.isEmpty && localPart.all (fun c => !c.isWhitespace) &&
    rest.all (fun c => !c.isWhitespace) &&
    ((rest.drop 1).dropLast.contains '.')
  | _ => false

/-- The character class `[\d\s\-\+\(\)]` of the phone regex. -/
def isPhoneChar (c : Char) : Bool :=
  c.isDigit || c.isWhitespace || c == '-' || c == '+' || c == '(' || c == ')'

/-- `isValidPhone`: the whole string matches `^[\d\s\-\+\(\)]+$` and at
least 10 characters remain after stripping non-digits. -/
def isValidPhone (phone : String) : Bool :=
  !phone.data.isEmpty && phone.data.all isPhoneChar &&
    (phone.data.filter Char.isDigit).length ≥ 10

/-- Scheme characters allowed after the leading letter of a URL scheme. -/
def schemeTail : List Char → Bool
  | [] => false
  | c :: cs =>
    if c == ':' then true
    else (c.isAlphanum || c == '+' || c == '-' || c == '.') && schemeTail cs

/-- Models `new URL(s)` succeeding: `s` is an absolute URL, approximated by
the WHATWG requirement that it start with a scheme — a letter followed by
letters, digits, `+`, `-` or `.` up to a colon. -/
def parsesAsURL (s : String) : Bool :=
  match s.data with
  | [] => false
  | c :: cs => c.isAlpha && schemeTail cs

/-- Rule 1: `jobId` absent or falsy. -/
def jobIdInvalid (d : AppData) : Bool := !(jsStrTruthy d.jobId)

/-- Rule 2: `applicantName` absent, falsy, or trimmed length < 2. -/
def applicantNameInvalid (d : AppData) : Bool :=
  !(jsStrTruthy d.applicantName) || (jsTrim (d.applicantName.getD "")).length < 2

/-- Rule 3: `email` absent, falsy, or failing the e-mail regex. -/
def emailInvalid (d : AppData) : Bool :=
  match d.email with
  | some e => e == "" || !(isValidEmail e)
  | none => true

/-- Rule 4: `phone` absent, falsy, or failing the phone check. -/
def phoneInvalid (d : AppData) : Bool :=
  match d.phone with
  | some p => p == "" || !(isValidPhone p)
  | none => true

/-- Rule 5: `coverLetter` absent, falsy, or trimmed length < 50. -/
def coverLetterInvalid (d : AppData) : Bool :=
  !(jsStrTruthy d.coverLetter) || (jsTrim (d.coverLetter.getD "")).length < 50

/-- Rule 6: `yearsOfExperience` present and negative. -/
def yearsInvalid (d : AppData) : Bool :=
  match d.yearsOfExperience with
  | some n => n < 0
  | none => false

/-- Rule 7: `linkedIn` present, truthy, non-blank, and not containing
`linkedin.com`. -/
def linkedInInvalid (d : AppData) : Bool :=
  match d.linkedIn with
  | some s => !(s == "") && !(jsTrim s == "") && !(strContains s "linkedin.com")
  | none => false

/-- Rule 8: `portfolio` present, truthy, non-blank, and not parsing as an
absolute URL. -/
def portfolioInvalid (d : AppData) : Bool :=
  match d.portfolio with
  | some s => !(s == "") && !(jsTrim s == "") && !(parsesAsURL s)
  | none => false

def msgJobId : String := "Job ID is required"
def msgApplicantName : String := "Applicant name must be at least 2 characters"
def msgEmail : String := "Valid email address is required"
def msgPhone : String := "Valid phone number is required (minimum 10 digits)"
def msgCoverLetter : String := "Cover letter must be at least 50 characters"
def msgYears : String := "Years of experience must be a non-negative number"
def msgLinkedIn : String := "LinkedIn URL must be a valid LinkedIn profile URL"
def msgPortfolio : String := "Portfolio must be a valid URL"

/-- `validateApplication`: run every rule, collect every violation in source
order, and report validity as emptiness of the error list. -/
def validateApplication (data : AppData) : Bool × List String :=
  let errors : List String :=
    (if jobIdInvalid data then [msgJobId] else []) ++
    (if applicantNameInvalid data then [msgApplicantName] else []) ++
    (if emailInvalid data then [msgEmail] else []) ++
    (if phoneInvalid data then [msgPhone] else []) ++
    (if coverLetterInvalid data then [msgCoverLetter] else []) ++
    (if yearsInvalid data then [msgYears] else []) ++
    (if linkedInInvalid data then [msgLinkedIn] else []) ++
    (if portfolioInvalid data then [msgPortfolio] else [])
  (errors.length == 0, errors)

/-! ### Application store and `POST /api/apply` (`app/api/apply/route.ts`) -/

/-- A stored application: the submitted fields plus the generated `id` and
`submittedAt`. -/
structure ApplicationRecord where
  id : String
  jobId : String
  applicantName : String
  email : String
  phone : String
  coverLetter : String
  linkedIn : Option String
  portfolio : Option String
  yearsOfExperience : Int
  submittedAt : String
deriving Repr, DecidableEq

/-- The JSON body of a `POST /api/apply` response (fields relevant to the
claims; `errors` is `[]` when the source omits the field). -/
structure ApplyResponse where
  status : Nat
  success : Bool
  message : String
  errors : List String
  applicationId : Option String
  submittedAtField : Option String
  jobIdField : Option String
deriving Repr, DecidableEq

/-- `body.linkedIn?.trim() || undefined`: trim when present, and collapse a
blank result to `undefined`. -/
def jsTrimOrUndefined (v : Option String) : Option String :=
  match v with
  | some s => if jsTrim s = "" then none else some (jsTrim s)
  | none => none

/-- The `ApplicationRecord` the handler builds on acceptance. `rand` models
the `Math.random().toString(36).substr(2, 9)` suffix.
`body.yearsOfExperience || 0` keeps a present number (a falsy `0` is
replaced by the same `0`) and defaults an absent one to `0`; `body.jobId` is
present whenever validation passed, so the `getD` defaults are dead. -/
def mkApplicationRecord (nowMs : Nat) (rand : String) (body : AppData) : ApplicationRecord :=
  { id := "app-" ++ toString nowMs ++ "-" ++ rand
    jobId := body.jobId.getD ""
    applicantName := jsTrim (body.applicantName.getD "")
    email := jsToLower (jsTrim (body.email.getD ""))
    phone := jsTrim (body.phone.getD "")
    coverLetter := jsTrim (body.coverLetter.getD "")
    linkedIn := jsTrimOrUndefined body.linkedIn
    portfolio := jsTrimOrUndefined body.portfolio
    yearsOfExperience := body.yearsOfExperience.getD 0
    submittedAt := toISOString (nowMs : Int) }

/-- The `POST /api/apply` handler on a successfully parsed body: validate,
and either reject with 400 (store untouched) or append exactly one record
and respond 201. -/
def POSTapply (nowMs : Nat) (rand : String) (body : AppData)
    (applications : List ApplicationRecord) : ApplyResponse × List ApplicationRecord :=
  let validation := validateApplication body
  if validation.1 = false then
    ({ status := 400, success := false, message := "Validation failed",
       errors := validation.2, applicationId := none, submittedAtField := none,
       jobIdField := none }, applications)
  else
    let application := mkApplicationRecord nowMs rand body
    ({ status := 201, success := true, message := "Application submitted successfully",
       errors := [], applicationId := some application.id,
       submittedAtField := some application.submittedAt,
       jobIdField := some application.jobId }, applications ++ [application])

/-- Recogniser for the claimed id shape `app-<digits>-<alnum>`. -/
def alnumOnePlus : List Char → Bool
  | [] => false
  | c :: cs => c.isAlphanum && cs.all Char.isAlphanum

/-- After at least one digit: consume further digits, then expect `-`
followed by a non-empty alphanumeric block. -/
def digitsTail : List Char → Bool
  | [] => false
  | c :: cs => if c.isDigit then digitsTail cs else c == '-' && alnumOnePlus cs

/-- At least one digit, then `-`, then a non-empty alphanumeric block. -/
def digitsDashAlnum : List Char → Bool
  | [] => false
  | c :: cs => c.isDigit && digitsTail cs

/-- The full id pattern `app-<digits>-<alnum>`: the literal prefix `app-`,
then at least one digit, a dash, and a non-empty alphanumeric block. -/
def matchesAppIdPattern (s : String) : Bool :=
  leadsWith "app-".data s.data && digitsDashAlnum (s.data.drop 4)

/-! ### Client fetch helper (`lib/api.ts`, `fetchJobs`) -/

/-- How the HTTP exchange inside `fetchJobs` can go: the `fetch`/`json`
promise rejects, the response is not ok (which the helper turns into a
thrown error), or a body arrives whose `data` field is absent or a job
array. -/
inductive FetchAttempt where
  | threw
  | notOk (status : Nat)
  | okBody (dataField : Option (List Job))
deriving Repr, DecidableEq

/-- `fetchJobs`: return the server's jobs, falling back to the static
`MOCK_JOBS` dataset (a parameter here: the constants module is not part of
the reviewed source) on any thrown error, non-ok status, or a missing or
empty `data` array. -/
def fetchJobs (MOCK_JOBS : List Job) (attempt : FetchAttempt) : List Job :=
  match attempt with
  | .threw => MOCK_JOBS
  | .notOk _ => MOCK_JOBS
  | .okBody dataField =>
    match dataField with
    | none => MOCK_JOBS
    | some ds => if ds.length = 0 then MOCK_JOBS else ds

/-! ### Client State Controller (`context/JobContext.tsx`) -/

/-- The provider state touched by `loadJobs`. -/
structure ClientState where
  jobs : List Job
  filteredJobs : List Job
  loading : Bool
  error : Option String
deriving Repr, DecidableEq

/-- Outcome of the awaited `fetchJobs` call inside `loadJobs`: either a job
list, or a thrown error whose `handleApiError(...).message` is `msg`. -/
inductive FetchOutcome where
  | ok (jobs : List Job)
  | err (msg : String)
deriving Repr, DecidableEq

/-- Modelled from the spec: `ERROR_MESSAGES.FETCH_FAILED` lives in the
constants module, which is absent from the reviewed source; the spec only
requires that an error message be surfaced. -/
def FETCH_FAILED_MSG : String := "Failed to fetch jobs. Please try again later."

/-- `apiError.message || ERROR_MESSAGES.FETCH_FAILED`. -/
def surfaceError (msg : String) : String :=
  if msg = "" then FETCH_FAILED_MSG else msg

/-- One `loadJobs` run as a state transition: set `loading`, clear `error`,
await the fetch, then either install the new job list or record the error
message; `loading` is cleared in `finally`. The `catch` branch does not
touch `jobs`/`filteredJobs`. -/
def loadJobsStep (outcome : FetchOutcome) (s : ClientState) : ClientState :=
  let s1 := { s with loading := true, error := none }
  match outcome with
  | .ok jobData =>
    { s1 with jobs := jobData, filteredJobs := jobData, loading := false }
  | .err msg =>
    { s1 with error := some (surfaceError msg), loading := false }

/-! ### Debounced filter-driven fetching (`JobContext.tsx`, lines 188–208)

Discrete-event model of the mechanism: `updateFilter` mutates the filter
state, which re-runs the effect — the effect's cleanup cancels the pending
timer and the effect schedules `loadJobs` (closing over the new filter
state) 300 ms later. Advancing time fires the pending timer when its
deadline has passed, logging a fetch with the filter state the timer
captured. -/

/-- The client's `FilterState` (`interfaces/index.ts`). -/
structure FilterState where
  category : String
  location : String
  experienceLevel : String
  jobType : String
  searchQuery : String
  remoteOnly : Bool
deriving Repr, DecidableEq

/-- A field name of `FilterState` (the `filterName` argument). -/
inductive FilterName where
  | category | location | experienceLevel | jobType | searchQuery | remoteOnly
deriving Repr, DecidableEq

/-- A `string | boolean` filter value. -/
inductive FilterValue where
  | str (s : String)
  | bool (b : Bool)
deriving Repr, DecidableEq

/-- `{...prev, [filterName]: value}`; an assignment whose value does not fit
the field's type is outside the TypeScript surface and leaves the state
unchanged. -/
def setFilter (fs : FilterState) (n : FilterName) (v : FilterValue) : FilterState :=
  match n, v with
  | .category, .str s => { fs with category := s }
  | .location, .str s => { fs with location := s }
  | .experienceLevel, .str s => { fs with experienceLevel := s }
  | .jobType, .str s => { fs with jobType := s }
  | .searchQuery, .str s => { fs with searchQuery := s }
  | .remoteOnly, .bool b => { fs with remoteOnly := b }
  | _, _ => fs

/-- The debounce machinery: the current filters, the pending timer (its
deadline and the filter state its `loadJobs` closure captured), and the log
of fetches that have fired. -/
structure DebounceState where
  filters : FilterState
  timer : Option (Nat × FilterState)
  fetches : List FilterState
deriving Repr, DecidableEq

/-- An `updateFilter` call at time `t`: mutate the filters; the effect
re-run cancels any pending timer and schedules a fetch with the new filter
state at `t + 300`. -/
def stepUpdate (t : Nat) (n : FilterName) (v : FilterValue) (s : DebounceState) : DebounceState :=
  let filters1 := setFilter s.filters n v
  { filters := filters1, timer := some (t + 300, filters1), fetches := s.fetches }

/-- Advance the clock to time `t`, firing the pending timer if its deadline
has been reached. -/
def stepTime (t : Nat) (s : DebounceState) : DebounceState :=
  match s.timer with
  | some (deadline, captured) =>
    if deadline ≤ t then { s with timer := none, fetches := s.fetches ++ [captured] }
    else s
  | none => s

/-- Claim C5's description of `requirementsOf`, written from the spec's
words: split on sentence-ending punctuation, keep fragments whose trimmed
length exceeds 10, return the first 3 trimmed in original order, or exactly
the fallback triple when no fragment survives. -/
def requirementsOfSpec (description : String) : List String :=
  let survivors :=
    (jsSplitRuns isSentenceBreak description).filter fun s => (jsTrim s).length > 10
  if survivors.isEmpty then fallbackRequirements
  else (survivors.take 3).map jsTrim

/-! ### Concrete sample inputs used by witnesses and counterexamples -/

/-- The closed category set of the classifier. -/
def CATEGORY_SET : List String :=
  ["Software Development", "Data Science", "Design", "Marketing",
   "Product Management", "Sales", "Customer Support", "Human Resources",
   "Finance", "DevOps", "Quality Assurance", "Security"]

/-- The closed experience-level set of the classifier. -/
def LEVEL_SET : List String := ["Entry-Level", "Mid-Level", "Senior", "Lead"]

/-- A metadata-shaped first array element that even carries an `id`. -/
def metaRec : RemoteOKJob :=
  { id := some "legal-notice", slug := none, position := none, company := none,
    location := none, tags := none, salary_min := none, salary_max := none,
    description := none, date := none }

/-- An ordinary upstream job record. -/
def j1Rec : RemoteOKJob :=
  { id := some "1", slug := none, position := some "Backend Engineer",
    company := some "Acme", location := some "Remote", tags := some ["dev"],
    salary_min := some 50000, salary_max := some 90000,
    description := some "Build and maintain backend services.",
    date := some 1700000000 }

/-- A second ordinary upstream job record. -/
def j2Rec : RemoteOKJob :=
  { id := some "2", slug := none, position := some "Senior Data Analyst",
    company := some "Globex", location := some "Remote", tags := some ["data"],
    salary_min := none, salary_max := none,
    description := some "Analyse data and report findings to the team.",
    date := none }

/-- An upstream record whose transformed job has no space character in any
searched field (title, company, description, category). -/
def designRec : RemoteOKJob :=
  { id := some "3", slug := none, position := some "Designer",
    company := some "Acme", location := some "Remote", tags := some ["design"],
    salary_min := none, salary_max := none, description := some "Shortdesc",
    date := none }

/-- An upstream record with `salary_min` present but `0` (falsy) and
`salary_max` present and truthy. -/
def zeroSalaryRec : RemoteOKJob :=
  { id := some "4", slug := none, position := some "Intern",
    company := some "Acme", location := some "Remote", tags := some ["dev"],
    salary_min := some 0, salary_max := some 50000,
    description := some "Internship position on the backend team.",
    date := none }

/-- No filter active. -/
def noFilters : JobsQuery :=
  { query := "", experienceLevel := none, category := none, jobType := none }

/-- A whitespace-only search query. -/
def spaceQuery : JobsQuery :=
  { query := " ", experienceLevel := none, category := none, jobType := none }

/-- A 50-character cover letter. -/
def sampleCover50 : String := String.mk (List.replicate 50 'x')

/-- A 49-character cover letter. -/
def sampleCover49 : String := String.mk (List.replicate 49 'x')

/-- The spec's acceptance scenario body. -/
def sampleApp50 : AppData :=
  { jobId := some "j1", applicantName := some "Al", email := some "a@b.com",
    phone := some "1234567890", coverLetter := some sampleCover50,
    linkedIn := none, portfolio := none, yearsOfExperience := some 2 }

/-- The same body with a 49-character cover letter. -/
def sampleApp49 : AppData := { sampleApp50 with coverLetter := some sampleCover49 }

/-- An entirely empty body. -/
def emptyAppData : AppData :=
  { jobId := none, applicantName := none, email := none, phone := none,
    coverLetter := none, linkedIn := none, portfolio := none,
    yearsOfExperience := none }

/-- A concrete transformed job. -/
def sampleJob : Job := transformRemoteOKJob 0 j1Rec

/-- A client state that already holds a job. -/
def clientWithJob : ClientState :=
  { jobs := [sampleJob], filteredJobs := [sampleJob], loading := false, error := none }

/-- Default-like filter values for the debounce witness. -/
def filtersInit : FilterState :=
  { category := "All Categories", location := "", experienceLevel := "All Levels",
    jobType := "All Types", searchQuery := "", remoteOnly := false }

/-- An idle debounce state with no pending timer and no fetches logged. -/
def debounceInit : DebounceState :=
  { filters := filtersInit, timer := none, fetches := [] }

/-! ### Helper lemmas -/

theorem boolStage (c : Bool) (p : Job → Bool) (l : List Job) :
    (if c then l.filter p else l) = l.filter fun a => !c || p a := by
  cases c <;> simp

theorem ite_true_or (c b : Bool) : (if c then b else true) = (!c || b) := by
  cases c <;> simp

theorem trim_ne_absorb (qq : String) :
    (qq != "" && jsTrim qq != "") = (jsTrim qq != "") := by
  by_cases h : qq = ""
  · subst h; rfl
  · simp [bne, h]

theorem applyJobFilters_eq (q : JobsQuery) (l : List Job) :
    applyJobFilters q l = l.filter (amendedKeep q) := by
  obtain ⟨qq, qel, qcat, qt⟩ := q
  simp only [applyJobFilters, trim_ne_absorb]
  cases qel <;> cases qcat <;> cases qt <;>
    simp only [boolStage] <;>
    (try simp only [List.filter_filter]) <;>
    (apply List.filter_congr
     intro x hx
     simp only [amendedKeep, optParamKeep, querySubstrMatch, ite_true_or,
       Bool.true_and])

/-- Claim C1, counterexample: with the whitespace-only query `" "`, the
handler skips the substring filter (`query.trim() !== ''` fails), but the
claim's rule — filter whenever `query` is non-empty — would drop a job none
of whose searched fields contains a space. -/
theorem listJobs_claimed_counterexample :
    listJobs 0 (some [some metaRec, some designRec]) spaceQuery ≠
      listJobsClaimed 0 (some [some metaRec, some designRec]) spaceQuery := by
  decide

/-- Claim C1 (amended): `listJobs` returns exactly the jobs obtained by
dropping the first upstream array element, dropping records without a
truthy id, transforming the rest, and keeping a job iff the query substring
rule (active when the query is non-empty after trimming — the amendment)
and each active exact-match rule hold; and on `[metadataObj, job1, job2]`
with no filters it returns exactly the 2 transformed jobs, the first
element never appearing. -/
theorem listJobs_pipeline_amended :
    (∀ nowMs result q, listJobs nowMs result q = listJobsAmended nowMs result q) ∧
    listJobs 77 (some [some metaRec, some j1Rec, some j2Rec]) noFilters =
      [transformRemoteOKJob 77 j1Rec, transformRemoteOKJob 77 j2Rec] := by
  constructor
  · intro nowMs result q
    exact applyJobFilters_eq q (transformUpstream nowMs result)
  · decide

/-- Claim C4: `determineExperienceLevel` resolves Senior indicators first,
then Lead indicators, then Entry indicators, defaulting to Mid-Level; a
title with both Senior and Lead indicators resolves to Senior. -/
theorem determineExperienceLevel_priority :
    ∀ title : String,
      (hasSeniorKW (jsToLower title) = true →
        determineExperienceLevel title = "Senior") ∧
      (hasLeadKW (jsToLower title) = true → hasSeniorKW (jsToLower title) = false →
        determineExperienceLevel title = "Lead") ∧
      (hasSeniorKW (jsToLower title) = false → hasLeadKW (jsToLower title) = false →
        hasEntryKW (jsToLower title) = false →
        determineExperienceLevel title = "Mid-Level") ∧
      (hasSeniorKW (jsToLower title) = true → hasLeadKW (jsToLower title) = true →
        determineExperienceLevel title = "Senior") := by
  intro title
  refine ⟨fun h1 => ?_, fun h1 h2 => ?_, fun h1 h2 h3 => ?_, fun h1 _ => ?_⟩
  · simp [determineExperienceLevel, h1]
  · simp [determineExperienceLevel, h1, h2]
  · simp [determineExperienceLevel, h1, h2, h3]
  · simp [determineExperienceLevel, h1]

/-- Witness for C4 at concrete titles, one per keyword situation. -/
theorem determineExperienceLevel_priority_witness :
    determineExperienceLevel "Senior Backend Engineer" = "Senior" ∧
    determineExperienceLevel "Lead Backend Engineer" = "Lead" ∧
    determineExperienceLevel "Backend Developer" = "Mid-Level" ∧
    determineExperienceLevel "Senior Tech Lead" = "Senior" :=
  ⟨(determineExperienceLevel_priority "Senior Backend Engineer").1 (by decide),
   (determineExperienceLevel_priority "Lead Backend Engineer").2.1 (by decide) (by decide),
   (determineExperienceLevel_priority "Backend Developer").2.2.1 (by decide) (by decide)
     (by decide),
   (determineExperienceLevel_priority "Senior Tech Lead").2.2.2 (by decide) (by decide)⟩

theorem extractRequirements_eq_spec (d : String) :
    extractRequirements d = requirementsOfSpec d := by
  by_cases hd : d = ""
  · subst hd; decide
  · simp only [extractRequirements, requirementsOfSpec, if_pos hd]
    by_cases hs :
        ((jsSplitRuns isSentenceBreak d).filter fun s => (jsTrim s).length > 10) = []
    · simp [hs]
    · have h1 :
          ¬((((jsSplitRuns isSentenceBreak d).filter
              fun s => (jsTrim s).length > 10).take 3).map jsTrim).length = 0 := by
        simp only [List.length_map, List.length_take]
        have := List.length_pos.mpr hs
        omega
      simp [hs, h1, List.isEmpty_iff]

/-- Claim C5: `extractRequirements` behaves exactly as the spec's
`requirementsOf` (split on `.!?` runs, keep fragments with trimmed length
over 10, first 3 trimmed, fallback triple when none survive, including on
the empty string), and its result always has between 1 and 3 entries. -/
theorem extractRequirements_spec :
    (∀ d, extractRequirements d = requirementsOfSpec d) ∧
    (∀ d, 1 ≤ (extractRequirements d).length ∧ (extractRequirements d).length ≤ 3) ∧
    extractRequirements "" = fallbackRequirements := by
  have hb : ∀ d, 1 ≤ (extractRequirements d).length ∧ (extractRequirements d).length ≤ 3 := by
    intro d
    rw [extractRequirements_eq_spec]
    simp only [requirementsOfSpec]
    by_cases hs :
        ((jsSplitRuns isSentenceBreak d).filter fun s => (jsTrim s).length > 10) = []
    · simp [hs, fallbackRequirements]
    · have hpos := List.length_pos.mpr hs
      rw [if_neg (by simpa [List.isEmpty_iff] using hs)]
      simp only [List.length_map, List.length_take]
      omega
  exact ⟨extractRequirements_eq_spec, hb, by decide⟩

theorem ite_mem {c : Prop} [Decidable c] {a b : String} {l : List String}
    (ha : a ∈ l) (hb : b ∈ l) : (if c then a else b) ∈ l := by
  split <;> assumption

/-- Claim C6: `determineCategory` always lands in the fixed 12-category set
(defaulting to Software Development), `determineExperienceLevel` always
lands in the 4-level set (defaulting to Mid-Level), and hence every
transformed `Job` has `category` and `experienceLevel` in their closed sets. -/
theorem classifier_closed_sets :
    (∀ x : TagsOrTitle, determineCategory x ∈ CATEGORY_SET) ∧
    (∀ t : String, determineExperienceLevel t ∈ LEVEL_SET) ∧
    (∀ (nowMs : Nat) (r : RemoteOKJob),
      (transformRemoteOKJob nowMs r).category ∈ CATEGORY_SET ∧
      (transformRemoteOKJob nowMs r).experienceLevel ∈ LEVEL_SET) ∧
    determineCategory (.title "") = "Software Development" ∧
    determineExperienceLevel "" = "Mid-Level" := by
  have hcof : ∀ st : String, categoryOfText st ∈ CATEGORY_SET := by
    intro st
    unfold categoryOfText
    repeat' apply ite_mem
    all_goals decide
  have hcat : ∀ x : TagsOrTitle, determineCategory x ∈ CATEGORY_SET := fun x => hcof _
  have hlev : ∀ t : String, determineExperienceLevel t ∈ LEVEL_SET := by
    intro t
    simp only [determineExperienceLevel]
    repeat' apply ite_mem
    all_goals decide
  have hproj : ∀ (nowMs : Nat) (r : RemoteOKJob),
      (transformRemoteOKJob nowMs r).category = determineCategory (.tags (r.tags.getD [])) ∧
      (transformRemoteOKJob nowMs r).experienceLevel =
        determineExperienceLevel (jsOrStr r.position "") :=
    fun _ _ => ⟨rfl, rfl⟩
  refine ⟨hcat, hlev, fun nowMs r => ⟨?_, ?_⟩, by decide, by decide⟩
  · rw [(hproj nowMs r).1]; exact hcat _
  · rw [(hproj nowMs r).2]; exact hlev _

/-- Claim C7, counterexample: a record with `salary_min = 0` has both salary
bounds present upstream, yet the transformer outputs no salary (the ternary
tests JS truthiness and `0` is falsy), contradicting the claim's "present
implies `{min, max, 'USD'}`". -/
theorem transform_salary_zero_counterexample :
    zeroSalaryRec.salary_min = some 0 ∧ zeroSalaryRec.salary_max = some 50000 ∧
    (transformRemoteOKJob 0 zeroSalaryRec).salary = none ∧
    (transformRemoteOKJob 0 zeroSalaryRec).salary ≠
      some { min := 0, max := 50000, currency := "USD" } := by
  refine ⟨rfl, rfl, rfl, ?_⟩
  decide

/-- Claim C7 (amended): the transformer builds `salary` iff both
`salary_min` and `salary_max` are present and truthy (non-zero), in which
case it is `{min, max, 'USD'}`; a record missing (or carrying a falsy)
bound yields `salary = none`. -/
theorem transform_salary_amended :
    ∀ (nowMs : Nat) (r : RemoteOKJob),
      ((r.salary_min = none ∨ r.salary_max = none) →
        (transformRemoteOKJob nowMs r).salary = none) ∧
      (∀ mn mx : Int, r.salary_min = some mn → r.salary_max = some mx →
        (transformRemoteOKJob nowMs r).salary =
          (if mn ≠ 0 ∧ mx ≠ 0 then some { min := mn, max := mx, currency := "USD" }
           else none)) := by
  intro nowMs r
  constructor
  · intro h
    rcases h with h | h <;> simp [transformRemoteOKJob, jsNumTruthy, h]
  · intro mn mx h1 h2
    by_cases hmn : mn = 0 <;> by_cases hmx : mx = 0 <;>
      simp [transformRemoteOKJob, jsNumTruthy, h1, h2, hmn, hmx]

/-- Witness for C7 (amended): a record with truthy bounds gets the salary
triple; a record missing both bounds gets none. -/
theorem transform_salary_amended_witness :
    (transformRemoteOKJob 0 metaRec).salary = none ∧
    (transformRemoteOKJob 0 j1Rec).salary =
      some { min := 50000, max := 90000, currency := "USD" } := by
  constructor
  · exact (transform_salary_amended 0 metaRec).1 (Or.inl rfl)
  · have h := (transform_salary_amended 0 j1Rec).2 50000 90000 rfl rfl
    rw [h]
    decide

/-- Claim C8, counterexample: when the awaited fetch fails, `loadJobs`
records the error message but does not clear the job list — the previous
jobs survive, contradicting "the job list is cleared to empty". -/
theorem loadJobs_failure_counterexample :
    (loadJobsStep (.err "network down") clientWithJob).error = some "network down" ∧
    (loadJobsStep (.err "network down") clientWithJob).loading = false ∧
    (loadJobsStep (.err "network down") clientWithJob).jobs ≠ [] := by
  refine ⟨by decide, rfl, by decide⟩

/-- Claim C8 (amended): on fetch success the state becomes ready (`loading`
off, no error) with the new job list replacing the previous one; on failure
the state becomes errored with a message surfaced, and the job list keeps
its previous contents (it is not cleared). -/
theorem loadJobs_transitions_amended :
    ∀ (s : ClientState) (jobData : List Job) (msg : String),
      loadJobsStep (.ok jobData) s =
        { jobs := jobData, filteredJobs := jobData, loading := false, error := none } ∧
      (loadJobsStep (.err msg) s).error = some (surfaceError msg) ∧
      (loadJobsStep (.err msg) s).jobs = s.jobs ∧
      (loadJobsStep (.err msg) s).filteredJobs = s.filteredJobs ∧
      (loadJobsStep (.err msg) s).loading = false :=
  fun _ _ _ => ⟨rfl, rfl, rfl, rfl, rfl⟩

/-- Claim C9: two `updateFilter` calls with the second arriving inside the
300 ms window of the first trigger exactly one fetch once the quiet window
elapses, and that fetch carries the filter state as it stood after the
second call (the second mutation cancelled and rescheduled the first
pending fetch). -/
theorem debounce_single_fetch :
    ∀ (s0 : DebounceState) (t1 t2 tEnd : Nat) (n1 n2 : FilterName)
      (v1 v2 : FilterValue),
      t2 < t1 + 300 → t2 + 300 ≤ tEnd →
      (stepTime tEnd (stepUpdate t2 n2 v2 (stepTime t2 (stepUpdate t1 n1 v1 s0)))).fetches
          = s0.fetches ++ [setFilter (setFilter s0.filters n1 v1) n2 v2] ∧
      (s0.fetches = [] →
        (stepTime tEnd (stepUpdate t2 n2 v2 (stepTime t2 (stepUpdate t1 n1 v1 s0)))).fetches.length = 1) := by
  intro s0 t1 t2 tEnd n1 n2 v1 v2 h1 h2
  have hA : ¬ t1 + 300 ≤ t2 := by omega
  have heq :
      (stepTime tEnd (stepUpdate t2 n2 v2 (stepTime t2 (stepUpdate t1 n1 v1 s0)))).fetches
        = s0.fetches ++ [setFilter (setFilter s0.filters n1 v1) n2 v2] := by
    simp [stepUpdate, stepTime, hA, h2]
  refine ⟨heq, fun h0 => ?_⟩
  rw [heq, h0]
  rfl

/-- Witness for C9 at concrete times 0 and 100 with the window elapsing at
400: exactly one fetch fires, carrying the state after the second call. -/
theorem debounce_single_fetch_witness :
    (stepTime 400 (stepUpdate 100 .searchQuery (.str "dev")
        (stepTime 100 (stepUpdate 0 .searchQuery (.str "d") debounceInit)))).fetches
      = debounceInit.fetches ++
        [setFilter (setFilter debounceInit.filters .searchQuery (.str "d"))
          .searchQuery (.str "dev")] ∧
    (stepTime 400 (stepUpdate 100 .searchQuery (.str "dev")
        (stepTime 100 (stepUpdate 0 .searchQuery (.str "d") debounceInit)))).fetches.length = 1 :=
  ⟨(debounce_single_fetch debounceInit 0 100 400 .searchQuery .searchQuery
      (.str "d") (.str "dev") (by decide) (by decide)).1,
   (debounce_single_fetch debounceInit 0 100 400 .searchQuery .searchQuery
      (.str "d") (.str "dev") (by decide) (by decide)).2 rfl⟩

/-- Claim C10: `fetchJobs` falls back to `MOCK_JOBS` not only on a thrown
error or non-ok status but also on a successful response with a missing or
empty `data` array; hence it returns `[]` only if `MOCK_JOBS` itself is
empty, and a zero-match filter combination silently yields the mocks. -/
theorem fetchJobs_fallback :
    ∀ (mocks : List Job) (attempt : FetchAttempt),
      fetchJobs mocks .threw = mocks ∧
      (∀ st, fetchJobs mocks (.notOk st) = mocks) ∧
      fetchJobs mocks (.okBody none) = mocks ∧
      fetchJobs mocks (.okBody (some [])) = mocks ∧
      (∀ ds : List Job, ds ≠ [] → fetchJobs mocks (.okBody (some ds)) = ds) ∧
      (fetchJobs mocks attempt = [] → mocks = []) := by
  intro mocks attempt
  refine ⟨rfl, fun st => rfl, rfl, rfl, fun ds hds => ?_, fun h => ?_⟩
  · simp [fetchJobs, List.length_eq_zero, hds]
  · cases attempt with
    | threw => exact h
    | notOk st => exact h
    | okBody d =>
      cases d with
      | none => exact h
      | some ds =>
        by_cases hl : ds.length = 0
        · simpa [fetchJobs, hl] using h
        · exfalso
          apply hl
          have : ds = [] := by simpa [fetchJobs, hl] using h
          simp [this]

/-- Witness for C10: with empty mocks a thrown fetch yields `[]` (so the
"empty only if mocks empty" implication is exercised), and a non-empty
`data` array is returned as-is. -/
theorem fetchJobs_fallback_witness :
    ([] : List Job) = [] ∧ fetchJobs [] (.okBody (some [sampleJob])) = [sampleJob] :=
  ⟨(fetchJobs_fallback [] .threw).2.2.2.2.2 rfl,
   (fetchJobs_fallback [] (.okBody (some [sampleJob]))).2.2.2.2.1 [sampleJob]
     (by decide)⟩

theorem count_ite_single {c : Prop} [Decidable c] (m x : String) :
    ((if c then [m] else []) : List String).count x
      = if c then (if m = x then 1 else 0) else 0 := by
  split <;> simp [List.count_singleton, List.count_nil]

theorem ite_singleton_eq_nil {c : Bool} {m : String} :
    ((if c then [m] else []) : List String) = [] ↔ c = false := by
  cases c <;> simp

/-- Claim C3: `validateApplication` runs every rule with no short-circuit —
each rule's message appears in the error list exactly when (and exactly
once when) that rule alone is violated, `valid` holds iff the list is empty
iff no rule is violated (the cover-letter rule checks only the 50-character
minimum, so no maximum is enforced), and an otherwise-valid body with a
49-character cover letter fails with exactly the cover-letter message while
50 characters pass. -/
theorem validateApplication_rules :
    (∀ d : AppData,
      ((validateApplication d).1 = true ↔ (validateApplication d).2 = []) ∧
      ((validateApplication d).1 = true ↔
        (jobIdInvalid d = false ∧ applicantNameInvalid d = false ∧
         emailInvalid d = false ∧ phoneInvalid d = false ∧
         coverLetterInvalid d = false ∧ yearsInvalid d = false ∧
         linkedInInvalid d = false ∧ portfolioInvalid d = false)) ∧
      (validateApplication d).2.count msgJobId = (if jobIdInvalid d then 1 else 0) ∧
      (validateApplication d).2.count msgApplicantName
        = (if applicantNameInvalid d then 1 else 0) ∧
      (validateApplication d).2.count msgEmail = (if emailInvalid d then 1 else 0) ∧
      (validateApplication d).2.count msgPhone = (if phoneInvalid d then 1 else 0) ∧
      (validateApplication d).2.count msgCoverLetter
        = (if coverLetterInvalid d then 1 else 0) ∧
      (validateApplication d).2.count msgYears = (if yearsInvalid d then 1 else 0) ∧
      (validateApplication d).2.count msgLinkedIn
        = (if linkedInInvalid d then 1 else 0) ∧
      (validateApplication d).2.count msgPortfolio
        = (if portfolioInvalid d then 1 else 0)) ∧
    (validateApplication sampleApp49).1 = false ∧
    (validateApplication sampleApp49).2 = [msgCoverLetter] ∧
    (validateApplication sampleApp50).1 = true ∧
    (validateApplication sampleApp50).2 = [] := by
  refine ⟨fun d => ?_, by decide, by decide, by decide, by decide⟩
  refine ⟨?_, ?_, ?_, ?_, ?_, ?_, ?_, ?_, ?_, ?_⟩
  · simp [validateApplication, List.append_eq_nil]
  · simp [validateApplication, List.append_eq_nil, ite_singleton_eq_nil]
  all_goals
    simp [validateApplication, List.count_append, count_ite_single,
      msgJobId, msgApplicantName, msgEmail, msgPhone, msgCoverLetter,
      msgYears, msgLinkedIn, msgPortfolio]

theorem digitChar_isDigit {n : Nat} (h : n < 10) : (Nat.digitChar n).isDigit = true := by
  interval_cases n <;> decide

theorem toDigitsCore_all_digits (f : Nat) :
    ∀ (n : Nat) (acc : List Char), acc.all Char.isDigit = true →
      (Nat.toDigitsCore 10 f n acc).all Char.isDigit = true := by
  induction f with
  | zero => intro n acc h; simpa [Nat.toDigitsCore] using h
  | succ f ih =>
    intro n acc h
    have hd : (Nat.digitChar (n % 10)).isDigit = true :=
      digitChar_isDigit (Nat.mod_lt _ (by norm_num))
    simp only [Nat.toDigitsCore]
    split
    · simp [hd, h]
    · exact ih _ _ (by simp [hd, h])

theorem toDigitsCore_length_ge (f : Nat) :
    ∀ (n : Nat) (acc : List Char), acc.length ≤ (Nat.toDigitsCore 10 f n acc).length := by
  induction f with
  | zero => intro n acc; simp [Nat.toDigitsCore]
  | succ f ih =>
    intro n acc
    simp only [Nat.toDigitsCore]
    split
    · simp
    · exact le_trans (by simp) (ih (n / 10) (Nat.digitChar (n % 10) :: acc))

theorem natRepr_all_digits (n : Nat) : (Nat.repr n).data.all Char.isDigit = true :=
  toDigitsCore_all_digits (n + 1) n [] rfl

theorem natRepr_ne_nil (n : Nat) : (Nat.repr n).data ≠ [] := by
  show Nat.toDigits 10 n ≠ []
  unfold Nat.toDigits
  simp only [Nat.toDigitsCore]
  split
  · simp
  · intro hcon
    have hlen := toDigitsCore_length_ge n (n / 10) [Nat.digitChar (n % 10)]
    rw [hcon] at hlen
    simp at hlen

theorem digitsTail_append (rs : List Char) (h : alnumOnePlus rs = true) :
    ∀ ds : List Char, ds.all Char.isDigit = true →
      digitsTail (ds ++ '-' :: rs) = true := by
  intro ds
  induction ds with
  | nil =>
    intro _
    simp [digitsTail, h]
  | cons c cs ih =>
    intro hall
    simp only [List.all_cons, Bool.and_eq_true] at hall
    simp only [List.cons_append, digitsTail, hall.1, if_pos]
    exact ih hall.2

theorem matchesAppIdPattern_of (d r : String)
    (hd1 : d.data ≠ []) (hd2 : d.data.all Char.isDigit = true)
    (hr1 : r.data ≠ []) (hr2 : r.data.all Char.isAlphanum = true) :
    matchesAppIdPattern ("app-" ++ d ++ "-" ++ r) = true := by
  have hdata : ("app-" ++ d ++ "-" ++ r).data
      = 'a' :: 'p' :: 'p' :: '-' :: (d.data ++ '-' :: r.data) := by
    simp [String.data_append]
  have halnum : alnumOnePlus r.data = true := by
    cases hrd : r.data with
    | nil => exact absurd hrd hr1
    | cons c cs =>
      rw [hrd] at hr2
      simp only [List.all_cons, Bool.and_eq_true] at hr2
      simp [alnumOnePlus, hr2.1, hr2.2]
  rw [matchesAppIdPattern, hdata]
  cases hdd : d.data with
  | nil => exact absurd hdd hd1
  | cons c cs =>
    rw [hdd] at hd2
    simp only [List.all_cons, Bool.and_eq_true] at hd2
    simp [leadsWith, digitsDashAlnum, hd2.1,
      digitsTail_append r.data halnum cs hd2.2]

/-- Claim C2: on a body that `validateApplication` rejects, `POSTapply`
responds 400 with `success = false`, message "Validation failed" and the
itemized errors, leaving the store unchanged; on a body that passes, it
responds 201 with `success = true` and appends exactly one record whose id
is `app-<millis>-<suffix>` (matching `app-<digits>-<alnum>` for the
base-36 alphanumeric suffix), whose email is trimmed then lower-cased,
whose other string fields are trimmed, and whose `submittedAt` renders the
current timestamp. -/
theorem POSTapply_contract :
    ∀ (nowMs : Nat) (rand : String) (body : AppData)
      (store : List ApplicationRecord),
      ((validateApplication body).1 = false →
        POSTapply nowMs rand body store =
          ({ status := 400, success := false, message := "Validation failed",
             errors := (validateApplication body).2, applicationId := none,
             submittedAtField := none, jobIdField := none }, store)) ∧
      ((validateApplication body).1 = true →
        (POSTapply nowMs rand body store).1.status = 201 ∧
        (POSTapply nowMs rand body store).1.success = true ∧
        (POSTapply nowMs rand body store).2
          = store ++ [mkApplicationRecord nowMs rand body]) ∧
      (mkApplicationRecord nowMs rand body).id
        = "app-" ++ toString nowMs ++ "-" ++ rand ∧
      (mkApplicationRecord nowMs rand body).email
        = jsToLower (jsTrim (body.email.getD "")) ∧
      (mkApplicationRecord nowMs rand body).applicantName
        = jsTrim (body.applicantName.getD "") ∧
      (mkApplicationRecord nowMs rand body).phone = jsTrim (body.phone.getD "") ∧
      (mkApplicationRecord nowMs rand body).coverLetter
        = jsTrim (body.coverLetter.getD "") ∧
      (mkApplicationRecord nowMs rand body).submittedAt = toISOString (nowMs : Int) ∧
      (rand ≠ "" → rand.data.all Char.isAlphanum = true →
        matchesAppIdPattern (mkApplicationRecord nowMs rand body).id = true) := by
  intro nowMs rand body store
  refine ⟨fun hv => ?_, fun hv => ?_, rfl, rfl, rfl, rfl, rfl, rfl,
    fun hr1 hr2 => ?_⟩
  · simp [POSTapply, hv]
  · simp [POSTapply, hv]
  · have hid : (mkApplicationRecord nowMs rand body).id
        = "app-" ++ Nat.repr nowMs ++ "-" ++ rand := rfl
    rw [hid]
    refine matchesAppIdPattern_of (Nat.repr nowMs) rand (natRepr_ne_nil nowMs)
      (natRepr_all_digits nowMs) ?_ hr2
    intro hcon
    apply hr1
    cases rand with
    | mk rd => simp_all

/-- Witness for C2: the empty body is rejected with the store untouched;
the spec's acceptance scenario is accepted with exactly one appended record
whose generated id matches `app-<digits>-<alnum>`. -/
theorem POSTapply_contract_witness :
    (validateApplication emptyAppData).1 = false ∧
    POSTapply 5 "abc" emptyAppData [] =
      ({ status := 400, success := false, message := "Validation failed",
         errors := (validateApplication emptyAppData).2, applicationId := none,
         submittedAtField := none, jobIdField := none }, []) ∧
    (validateApplication sampleApp50).1 = true ∧
    (POSTapply 1700000000000 "k3j9a1b2c" sampleApp50 []).1.status = 201 ∧
    (POSTapply 1700000000000 "k3j9a1b2c" sampleApp50 []).1.success = true ∧
    (POSTapply 1700000000000 "k3j9a1b2c" sampleApp50 []).2
      = [mkApplicationRecord 1700000000000 "k3j9a1b2c" sampleApp50] ∧
    matchesAppIdPattern (mkApplicationRecord 1700000000000 "k3j9a1b2c" sampleApp50).id
      = true := by
  refine ⟨by decide, ?_, by decide, ?_, ?_, ?_, ?_⟩
  · exact (POSTapply_contract 5 "abc" emptyAppData []).1 (by decide)
  · exact ((POSTapply_contract 1700000000000 "k3j9a1b2c" sampleApp50 []).2.1
      (by decide)).1
  · exact ((POSTapply_contract 1700000000000 "k3j9a1b2c" sampleApp50 []).2.1
      (by decide)).2.1
  · have h := ((POSTapply_contract 1700000000000 "k3j9a1b2c" sampleApp50 []).2.1
      (by decide)).2.2
    simpa using h
  · exact (POSTapply_contract 1700000000000 "k3j9a1b2c" sampleApp50 []).2.2.2.2.2.2.2.2
      (by decide) (by decide)
